import Mathlib

/-!
Shallow embedding of `src/riscv/optional.h` from SpinalHDL/riscv-isa-sim:
a hand-rolled `Optional<T>` with a boolean presence flag and raw aligned
storage managed by placement new and explicit destructor calls.

Modelling conventions:
* The `StorageType` byte buffer is modelled as `Option T`: `some v` means a
  live, constructed `T` object with value `v` currently lives in the buffer;
  `none` means the buffer holds no live object (uninitialized or destroyed).
* `data()->~T()` (an explicit destructor call) turns the slot into `none`;
  placement `new (&storage) T(...)` turns it into `some v`.  Operations that
  may run the destructor return, besides the resulting state, a `Nat`
  counting how many destructor invocations happened, so that the
  "exactly one destruction / zero additional destructions" properties of the
  spec are expressible.
* Reading `*data()` when no live object is present is undefined behavior in
  the source; accessors that can perform such a read surface it as an
  explicit `AccessError.deadStorageRead` (for `Except`-valued accessors) or
  as a `none` result (for `value_or`).  On every state reachable through the
  public API with the presence flag set, this case never occurs.
* C++ moves on the contained `T` are value copies here (mathematical values
  have no moved-from state); crucially, the source's move constructor and
  move assignment clear the source box's flag but never run the destructor
  on the moved-from object, so the source slot keeps its live object.
* Pointer identity (`this != &other` in the assignment operators) is
  modelled by an explicit `isSelf : Bool` argument: `true` means the two
  arguments alias the same object (and are therefore the same value).
-/

/-- The tag type `NullOpt_t` of the source: a zero-size struct with exactly
one value, denoting deliberate absence. -/
structure NullOpt_t where

/-- The global constant `NullOpt` of the source. -/
def NullOpt : NullOpt_t := ⟨⟩

/-- Outcomes of a checked read of the box, besides success:
`emptyValueAccess msg` models `throw std::runtime_error(msg)` on an empty
box; `deadStorageRead` marks the undefined behavior of reading `*data()`
while no live object is in storage. -/
inductive AccessError where
  | emptyValueAccess (msg : String)
  | deadStorageRead
  deriving DecidableEq, Repr

/-- The `Optional<T>` class of the source: a presence flag plus a storage
slot for at most one `T` (`some v` = a live, constructed `T` with value
`v`). -/
structure Optional (T : Type) where
  has_value_flag : Bool
  storage : Option T
  deriving DecidableEq, Repr

namespace Optional

variable {T : Type}

/-- The private `data()` accessor: the storage interpreted as a `T` slot.
A read through the returned pointer yields the live object if one is
present. -/
def data (a : Optional T) : Option T :=
  a.storage

/-- Default constructor `Optional()`: flag `false`, storage uninitialized. -/
def mkEmpty : Optional T :=
  ⟨false, none⟩

/-- Constructor `Optional(NullOpt_t)`: flag `false`, storage uninitialized. -/
def mkNullopt (_ : NullOpt_t) : Optional T :=
  ⟨false, none⟩

/-- Constructor `Optional(const T& value)`: placement-new a copy of `value`
into storage, flag `true`. -/
def ofValueCopy (value : T) : Optional T :=
  ⟨true, some value⟩

/-- Constructor `Optional(T&& value)`: placement-new from the moved `value`
into storage, flag `true`. -/
def ofValueMove (value : T) : Optional T :=
  ⟨true, some value⟩

/-- Copy constructor `Optional(const Optional& other)`: flag is copied; if
`other` is flagged, copy-construct from `*other.data()` into storage,
otherwise leave storage uninitialized.  `other` is unmodified. -/
def copyCtor (other : Optional T) : Optional T :=
  ⟨other.has_value_flag, if other.has_value_flag then other.data else none⟩

/-- Move constructor `Optional(Optional&& other)`: flag is copied; if
`other` is flagged, move-construct from `*other.data()` into storage and
clear `other`'s flag.  No destructor runs on `other`'s object, so its slot
keeps the live moved-from `T`.  Returns the new box together with the
updated source. -/
def moveCtor (other : Optional T) : Optional T × Optional T :=
  if other.has_value_flag then
    (⟨true, other.data⟩, ⟨false, other.storage⟩)
  else
    (⟨other.has_value_flag, none⟩, other)

/-- Member `reset()`: if the flag is set, run the destructor on the object
in storage and clear the flag.  Returns the new state and the number of
destructor invocations (1 or 0). -/
def reset (a : Optional T) : Optional T × Nat :=
  if a.has_value_flag then (⟨false, none⟩, 1) else (a, 0)

/-- Copy assignment `operator=(const Optional& other)`: guarded by
`this != &other` (here `isSelf`); otherwise `reset()` first, then if
`other` is flagged, copy-construct from `*other.data()` and set the flag.
Returns the new state of `*this` and the destructor count. -/
def copyAssign (self other : Optional T) (isSelf : Bool) : Optional T × Nat :=
  if isSelf then (self, 0)
  else
    let r := self.reset
    if other.has_value_flag then (⟨true, other.data⟩, r.2) else (r.1, r.2)

/-- Move assignment `operator=(Optional&& other)`: guarded by
`this != &other` (here `isSelf`); otherwise `reset()` first, then if
`other` is flagged, move-construct from `*other.data()`, set the flag and
clear `other`'s flag (its slot keeps the live moved-from object).  Returns
the new states of `*this` and of `other`, and the destructor count. -/
def moveAssign (self other : Optional T) (isSelf : Bool) :
    (Optional T × Optional T) × Nat :=
  if isSelf then ((self, self), 0)
  else
    let r := self.reset
    if other.has_value_flag then
      ((⟨true, other.data⟩, ⟨false, other.storage⟩), r.2)
    else
      ((r.1, other), r.2)

/-- Assignment `operator=(NullOpt_t)`: calls `reset()` and returns
`*this`. -/
def assignNullopt (self : Optional T) (_ : NullOpt_t) : Optional T × Nat :=
  self.reset

/-- Member `has_value()`: returns the flag. -/
def has_value (a : Optional T) : Bool :=
  a.has_value_flag

/-- Member `T& value()`: throws `std::runtime_error("Optional has no
value")` when the flag is clear, otherwise returns `*data()` (reading a
dead slot is surfaced as `deadStorageRead`). -/
def value (a : Optional T) : Except AccessError T :=
  if !a.has_value_flag then
    .error (.emptyValueAccess "Optional has no value")
  else
    match a.data with
    | some v => .ok v
    | none => .error .deadStorageRead

/-- Member `const T& value() const`: same body as the non-const overload. -/
def valueConst (a : Optional T) : Except AccessError T :=
  if !a.has_value_flag then
    .error (.emptyValueAccess "Optional has no value")
  else
    match a.data with
    | some v => .ok v
    | none => .error .deadStorageRead

/-- Conversion `explicit operator bool()`: returns the flag. -/
def boolOp (a : Optional T) : Bool :=
  a.has_value_flag

/-- Operator `T& operator*()`: calls `value()`. -/
def derefStar (a : Optional T) : Except AccessError T :=
  a.value

/-- Operator `const T& operator*() const`: calls the const `value()`. -/
def derefStarConst (a : Optional T) : Except AccessError T :=
  a.valueConst

/-- Operator `T* operator->()`: returns `data()` with no presence check. -/
def arrowOp (a : Optional T) : Option T :=
  a.data

/-- Operator `const T* operator->() const`: returns `data()` with no
presence check. -/
def arrowOpConst (a : Optional T) : Option T :=
  a.data

/-- Member `value_or(const T& default_value)`: `has_value_flag ? *data() :
default_value`.  A `none` result marks the undefined read of a dead slot;
it is a `const` method, so the box itself is untouched. -/
def value_or (a : Optional T) (default_value : T) : Option T :=
  if a.has_value_flag then a.data else some default_value

/-- Operator `==(const NullOpt_t&)`: `!has_value_flag`. -/
def eqNullopt (a : Optional T) (_ : NullOpt_t) : Bool :=
  !a.has_value_flag

/-- Operator `!=(const NullOpt_t&)`: `has_value_flag`. -/
def neNullopt (a : Optional T) (_ : NullOpt_t) : Bool :=
  a.has_value_flag

end Optional

/-- Free helper `make_optional(const T& value)`: returns
`Optional<T>(value)` through the copy constructor-from-value. -/
def make_optional {T : Type} (value : T) : Optional T :=
  Optional.ofValueCopy value

/-- Free helper `make_optional(T&& value)`: returns `Optional<T>(value)`
through the move constructor-from-value. -/
def make_optional_move {T : Type} (value : T) : Optional T :=
  Optional.ofValueMove value

/-- States of `Optional<T>` reachable through any sequence of the public
operations: construction (default, from `NullOpt`, from a value, copy,
move), assignment (copy, move, from `NullOpt`), `reset`, and the free
helpers.  For the assignment operators, the aliasing case (`this ==
&other`) forces the two arguments to be the same box. -/
inductive Reachable {T : Type} : Optional T → Prop where
  | default_ctor : Reachable Optional.mkEmpty
  | nullopt_ctor : Reachable (Optional.mkNullopt NullOpt)
  | of_value_copy (v : T) : Reachable (Optional.ofValueCopy v)
  | of_value_move (v : T) : Reachable (Optional.ofValueMove v)
  | copy_ctor {a : Optional T} : Reachable a → Reachable (Optional.copyCtor a)
  | move_ctor_dst {a : Optional T} : Reachable a →
      Reachable (Optional.moveCtor a).1
  | move_ctor_src {a : Optional T} : Reachable a →
      Reachable (Optional.moveCtor a).2
  | copy_assign {a b : Optional T} : Reachable a → Reachable b →
      Reachable (Optional.copyAssign a b false).1
  | copy_assign_self {a : Optional T} : Reachable a →
      Reachable (Optional.copyAssign a a true).1
  | move_assign_dst {a b : Optional T} : Reachable a → Reachable b →
      Reachable (Optional.moveAssign a b false).1.1
  | move_assign_src {a b : Optional T} : Reachable a → Reachable b →
      Reachable (Optional.moveAssign a b false).1.2
  | move_assign_self {a : Optional T} : Reachable a →
      Reachable (Optional.moveAssign a a true).1.1
  | reset_r {a : Optional T} : Reachable a → Reachable a.reset.1
  | assign_nullopt {a : Optional T} : Reachable a →
      Reachable (a.assignNullopt NullOpt).1
  | mk_opt (v : T) : Reachable (make_optional v)
  | mk_opt_move (v : T) : Reachable (make_optional_move v)

theorem reset_flag_clear {T : Type} (a : Optional T) :
    a.reset.1.has_value_flag = false := by
  unfold Optional.reset
  split <;> simp_all

theorem flag_implies_live_aux {T : Type} {a : Optional T} (h : Reachable a) :
    a.has_value_flag = true → a.storage.isSome = true := by
  induction h <;>
    simp_all [Optional.mkEmpty, Optional.mkNullopt, Optional.ofValueCopy,
      Optional.ofValueMove, Optional.copyCtor, Optional.moveCtor,
      Optional.copyAssign, Optional.moveAssign, Optional.assignNullopt,
      Optional.reset, Optional.data, make_optional, make_optional_move] <;>
    split_ifs <;> simp_all

/-- C1: the checked accessors — `value()` (const and non-const) and
`operator*` (const and non-const) — raise the EmptyValueAccess error with
message "Optional has no value" on every empty box (whatever its storage
holds), and on an occupied box holding `v` they return `v` without
raising: they raise EmptyValueAccess exactly when the box is empty. -/
theorem checked_access_raises_iff_empty {T : Type} (v : T) (s : Option T) :
    (Optional.mk false s).value = .error (.emptyValueAccess "Optional has no value") ∧
    (Optional.mk false s).valueConst = .error (.emptyValueAccess "Optional has no value") ∧
    (Optional.mk false s).derefStar = .error (.emptyValueAccess "Optional has no value") ∧
    (Optional.mk false s).derefStarConst = .error (.emptyValueAccess "Optional has no value") ∧
    (Optional.mk true (some v)).value = .ok v ∧
    (Optional.mk true (some v)).valueConst = .ok v ∧
    (Optional.mk true (some v)).derefStar = .ok v ∧
    (Optional.mk true (some v)).derefStarConst = .ok v := by
  simp [Optional.value, Optional.valueConst, Optional.derefStar,
    Optional.derefStarConst, Optional.data]

/-- C2 counterexample: move-constructing from the occupied box
`Optional(0)` leaves a reachable source box whose presence flag is false
while its storage still holds a live, never-destroyed (moved-from) `T`, so
the flag is not equivalent to liveness of the storage. -/
theorem moved_from_source_refutes_flag_storage_iff :
    Reachable (Optional.moveCtor (Optional.ofValueCopy (0 : Nat))).2 ∧
    (Optional.moveCtor (Optional.ofValueCopy (0 : Nat))).2.has_value_flag = false ∧
    (Optional.moveCtor (Optional.ofValueCopy (0 : Nat))).2.storage = some 0 ∧
    ¬((Optional.moveCtor (Optional.ofValueCopy (0 : Nat))).2.has_value_flag = true ↔
      (Optional.moveCtor (Optional.ofValueCopy (0 : Nat))).2.storage.isSome = true) := by
  refine ⟨Reachable.move_ctor_src (Reachable.of_value_copy 0), ?_, ?_, ?_⟩ <;>
    simp [Optional.moveCtor, Optional.ofValueCopy, Optional.data]

/-- C2 (amended): every box reachable through the public operations
satisfies the forward direction of the invariant — when the presence flag
is true, the storage holds a live, constructed `T`.  The converse
direction fails: after a move-out, the source box has flag false while its
storage still holds a live moved-from `T` whose destructor is never run,
a third reachable configuration besides Empty and Occupied. -/
theorem reachable_flag_implies_live_storage {T : Type} {a : Optional T}
    (h : Reachable a) : a.has_value_flag = true → a.storage.isSome = true :=
  flag_implies_live_aux h

/-- Witness for the amended C2 theorem at the concrete box `Optional(7)`. -/
theorem reachable_flag_implies_live_storage_witness :
    Reachable (Optional.ofValueCopy (7 : Nat)) ∧
    (Optional.ofValueCopy (7 : Nat)).has_value_flag = true ∧
    (Optional.ofValueCopy (7 : Nat)).storage.isSome = true :=
  ⟨Reachable.of_value_copy 7, rfl,
    reachable_flag_implies_live_storage (Reachable.of_value_copy 7) rfl⟩

/-- C3: moving an occupied box holding `v` (by move-construction or by
move-assignment into any box `b`) leaves the destination occupied with
value `v` and clears the source's presence flag; moving from an empty
source leaves the destination empty. -/
theorem move_transfers_value_and_empties_source {T : Type} (v : T)
    (s : Option T) (b : Optional T) :
    (Optional.moveCtor (Optional.mk true (some v))).1.has_value_flag = true ∧
    (Optional.moveCtor (Optional.mk true (some v))).1.value = .ok v ∧
    (Optional.moveCtor (Optional.mk true (some v))).2.has_value_flag = false ∧
    (Optional.moveAssign b (Optional.mk true (some v)) false).1.1.has_value_flag = true ∧
    (Optional.moveAssign b (Optional.mk true (some v)) false).1.1.value = .ok v ∧
    (Optional.moveAssign b (Optional.mk true (some v)) false).1.2.has_value_flag = false ∧
    (Optional.moveCtor (Optional.mk false s)).1.has_value_flag = false ∧
    (Optional.moveAssign b (Optional.mk false s) false).1.1.has_value_flag = false := by
  refine ⟨?_, ?_, ?_, ?_, ?_, ?_, ?_, ?_⟩ <;>
    simp [Optional.moveCtor, Optional.moveAssign, Optional.value,
      Optional.data, reset_flag_clear]

/-- C4: self-assignment (copy or move, with the aliasing guard
`this != &other` detecting the self case) leaves the box's state and value
unchanged and runs zero destructor calls. -/
theorem self_assignment_is_noop {T : Type} (a : Optional T) :
    Optional.copyAssign a a true = (a, 0) ∧
    Optional.moveAssign a a true = ((a, a), 0) :=
  ⟨rfl, rfl⟩

/-- C5: a box constructed from a value `v` — via the copy-from-value or
move-from-value constructor, or via either `make_optional` overload —
reports occupied, and accessing its value returns `v` unchanged. -/
theorem construct_from_value_roundtrip {T : Type} (v : T) :
    (Optional.ofValueCopy v).has_value_flag = true ∧
    (Optional.ofValueCopy v).value = .ok v ∧
    (Optional.ofValueMove v).has_value_flag = true ∧
    (Optional.ofValueMove v).value = .ok v ∧
    (make_optional v).has_value_flag = true ∧
    (make_optional v).value = .ok v ∧
    (make_optional_move v).has_value_flag = true ∧
    (make_optional_move v).value = .ok v := by
  refine ⟨rfl, ?_, rfl, ?_, rfl, ?_, rfl, ?_⟩ <;>
    simp [Optional.ofValueCopy, Optional.ofValueMove, make_optional,
      make_optional_move, Optional.value, Optional.data]

/-- C6: `reset()` and assignment from `NullOpt` have exactly the same
effect (the assignment delegates to `reset()`): on an occupied box both
destroy the held value exactly once and leave the box empty; on an empty
box both are no-ops with zero destructor calls; both are total, and both
are idempotent (applying either to its own result destroys nothing
further). -/
theorem reset_equals_nullopt_assign_and_idempotent {T : Type}
    (a : Optional T) (v : T) (s : Option T) :
    a.assignNullopt NullOpt = a.reset ∧
    (Optional.mk true (some v)).reset = (Optional.mk false none, 1) ∧
    (Optional.mk false s).reset = (Optional.mk false s, 0) ∧
    (Optional.mk false s).assignNullopt NullOpt = (Optional.mk false s, 0) ∧
    a.reset.1.reset = (a.reset.1, 0) ∧
    (a.assignNullopt NullOpt).1.assignNullopt NullOpt
      = ((a.assignNullopt NullOpt).1, 0) := by
  by_cases h : a.has_value_flag = true <;>
    simp [Optional.reset, Optional.assignNullopt, h]

/-- C7: a default-constructed box and a box constructed from `NullOpt`
both report empty; for every box, equality with `NullOpt` returns the
negation of the presence query and inequality returns the presence query
itself, so `==` is true exactly on empty boxes and `!=` exactly on
occupied ones. -/
theorem empty_constructions_and_nullopt_comparison {T : Type}
    (a : Optional T) :
    (Optional.mkEmpty : Optional T).has_value = false ∧
    (Optional.mkNullopt NullOpt : Optional T).has_value = false ∧
    Optional.eqNullopt (Optional.mkEmpty : Optional T) NullOpt = true ∧
    Optional.eqNullopt (Optional.mkNullopt NullOpt : Optional T) NullOpt = true ∧
    a.eqNullopt NullOpt = !a.has_value ∧
    a.neNullopt NullOpt = a.has_value := by
  refine ⟨rfl, rfl, rfl, rfl, rfl, rfl⟩

/-- C8: `value_or(d)` returns the contained value on an occupied box
(ignoring the default) and returns the default on an empty box; it is a
total function of the box (a const method: the box is not mutated), and on
every reachable box it yields a defined result (never an undefined read,
never a raised error). -/
theorem value_or_contract {T : Type} (v d : T) (s : Option T)
    (a : Optional T) :
    Optional.value_or (Optional.mk true (some v)) d = some v ∧
    Optional.value_or (Optional.mk false s) d = some d ∧
    (Reachable a → (Optional.value_or a d).isSome = true) := by
  refine ⟨?_, ?_, fun h => ?_⟩
  · simp [Optional.value_or, Optional.data]
  · simp [Optional.value_or]
  · by_cases hf : a.has_value_flag = true
    · simpa [Optional.value_or, Optional.data, hf] using
        flag_implies_live_aux h hf
    · simp [Optional.value_or, hf]

/-- Witness for C8 at the occupied box `Optional(3)` with default 5. -/
theorem value_or_contract_witness :
    Optional.value_or (Optional.mk true (some (3 : Nat))) 5 = some 3 ∧
    Optional.value_or (Optional.mk false (none : Option Nat)) 5 = some 5 ∧
    Reachable (Optional.ofValueCopy (3 : Nat)) ∧
    (Optional.value_or (Optional.ofValueCopy (3 : Nat)) 5).isSome = true :=
  ⟨(value_or_contract 3 5 none (Optional.ofValueCopy (3 : Nat))).1,
   (value_or_contract 3 5 none (Optional.ofValueCopy (3 : Nat))).2.1,
   Reachable.of_value_copy 3,
   (value_or_contract 3 5 none (Optional.ofValueCopy (3 : Nat))).2.2
     (Reachable.of_value_copy 3)⟩

/-- C9: `operator->` (const and non-const) performs no presence check — on
every box, empty ones included, it returns the pointer to the internal
storage interpreted as `T` and never raises — while the checked `value()`
accessor raises EmptyValueAccess on the same empty box. -/
theorem arrow_unchecked_access {T : Type} (s : Option T) (a : Optional T) :
    a.arrowOp = a.data ∧
    a.arrowOpConst = a.data ∧
    a.data = a.storage ∧
    (Optional.mk false s).arrowOp = s ∧
    (Optional.mk false s).arrowOpConst = s ∧
    (Optional.mk false s).value
      = .error (.emptyValueAccess "Optional has no value") := by
  refine ⟨rfl, rfl, rfl, rfl, rfl, ?_⟩
  simp [Optional.value]

/-- C10: the explicit boolean conversion returns exactly the result of the
presence query `has_value()`: both are the presence flag, with no side
effects (both are pure functions of the box). -/
theorem bool_conversion_equals_has_value {T : Type} (a : Optional T) :
    a.boolOp = a.has_value ∧ a.has_value = a.has_value_flag :=
  ⟨rfl, rfl⟩
